import Mathlib

/-!
Verification development for the AI-First CRM HCP-interaction repository.

The frontend (React + Redux) is embedded from the JavaScript sources under
src/frontend and src/unnamed; the backend HTTP handlers are not part of the
source tree, so they are modelled from the specification (each such
definition carries a doc comment starting with "Modelled from the spec:").
Machine-level concerns do not arise: all data is strings, options and lists.
-/

namespace CrmHcp

/-- A JSON-ish value as it appears in the request bodies the frontend builds:
either a string or null (no other value shapes occur in these payloads). -/
inductive JsonVal where
  | str (s : String)
  | null
deriving DecidableEq, Repr

/-- Look up a key in an association-list request body. -/
def lookupField (k : String) (body : List (String × JsonVal)) : Option JsonVal :=
  match body with
  | [] => none
  | (k', v) :: rest => if k' = k then some v else lookupField k rest

/-! ## Redux interaction slice (src/frontend/src/redux/interactionSlice.js and
src/unnamed/part_001).

Both files define a slice with state fields mode/loading/error/
lastInteraction/chatToolResult, three plain reducers (setMode, clearError,
clearChatResult) and six extraReducer cases for the two async thunks.
`D` stands for the arbitrary JSON response data (`res.data`) carried by a
fulfilled action. -/

/-- The payload passed to a rejected thunk action via rejectWithValue:
an object whose detail field may be absent.  The action payload itself may
be absent as well (modelled by wrapping in Option at the use site). -/
structure RejectPayload where
  detail : Option String
deriving DecidableEq, Repr

/-- JavaScript `a || b` for an optional string `a`: undefined, null and the
empty string are falsy and fall through to the default. -/
def jsOrElse (a : Option String) (b : String) : String :=
  match a with
  | some s => if s = "" then b else s
  | none => b

/-- State of the interaction slice. -/
structure SliceState (D : Type) where
  mode : String
  loading : Bool
  error : Option String
  lastInteraction : Option D
  chatToolResult : Option D
deriving DecidableEq, Repr

/-- The actions the interaction slice handles: the three plain reducers and
the pending/fulfilled/rejected cases of createStructuredInteraction and
createChatInteraction. -/
inductive SliceAction (D : Type) where
  | setMode (payload : String)
  | clearError
  | clearChatResult
  | structuredPending
  | structuredFulfilled (payload : D)
  | structuredRejected (payload : Option RejectPayload)
  | chatPending
  | chatFulfilled (payload : D)
  | chatRejected (payload : Option RejectPayload)
deriving DecidableEq, Repr

/-- Initial state of the slice (identical in both copies). -/
def initialSliceState (D : Type) : SliceState D :=
  { mode := "form"
  , loading := false
  , error := none
  , lastInteraction := none
  , chatToolResult := none }

/-- The reducer defined in src/frontend/src/redux/interactionSlice.js
(lines 31-78), transcribed case by case. -/
def interactionReducerFrontend {D : Type} (s : SliceState D) (a : SliceAction D) :
    SliceState D :=
  match a with
  | .setMode payload => { s with mode := payload }
  | .clearError => { s with error := none }
  | .clearChatResult => { s with chatToolResult := none }
  | .structuredPending => { s with loading := true, error := none }
  | .structuredFulfilled payload =>
      { s with loading := false, lastInteraction := some payload }
  | .structuredRejected payload =>
      { s with loading := false
             , error := some (jsOrElse (payload.bind (·.detail))
                 "Failed to save interaction") }
  | .chatPending => { s with loading := true, error := none }
  | .chatFulfilled payload =>
      { s with loading := false, chatToolResult := some payload }
  | .chatRejected payload =>
      { s with loading := false
             , error := some (jsOrElse (payload.bind (·.detail))
                 "Failed to process chat interaction") }

/-- The reducer defined in src/unnamed/part_001 (lines 61-108), transcribed
case by case.  (The thunks of that file differ from the frontend copy in
their network error handling, but those run outside the reducer; the slice
reducer cases themselves are transcribed here.) -/
def interactionReducerUnnamed {D : Type} (s : SliceState D) (a : SliceAction D) :
    SliceState D :=
  match a with
  | .setMode payload => { s with mode := payload }
  | .clearError => { s with error := none }
  | .clearChatResult => { s with chatToolResult := none }
  | .structuredPending => { s with loading := true, error := none }
  | .structuredFulfilled payload =>
      { s with loading := false, lastInteraction := some payload }
  | .structuredRejected payload =>
      { s with loading := false
             , error := some (jsOrElse (payload.bind (·.detail))
                 "Failed to save interaction") }
  | .chatPending => { s with loading := true, error := none }
  | .chatFulfilled payload =>
      { s with loading := false, chatToolResult := some payload }
  | .chatRejected payload =>
      { s with loading := false
             , error := some (jsOrElse (payload.bind (·.detail))
                 "Failed to process chat interaction") }

/-- Run the frontend slice reducer from the initial state over a list of
actions. -/
def runSlice {D : Type} (acts : List (SliceAction D)) : SliceState D :=
  acts.foldl interactionReducerFrontend (initialSliceState D)

/-! ## Structured form (src/frontend/src/components/LogInteractionForm.jsx,
LogInteractionForm component) -/

/-- The useState form object of LogInteractionForm (lines 61-73). -/
structure FormState where
  hcp_name : String
  interaction_type : String
  date : String
  time : String
  attendees : String
  topics_discussed : String
  materials_shared : List String
  samples_distributed : List String
  sentiment : String
  outcomes : String
  follow_up_actions : String
deriving DecidableEq, Repr

/-- The notes string that handleSubmit assembles (lines 128-138): the truthy
components, joined with newlines.  JavaScript && with a string left operand
makes each component present exactly when its source field is nonempty. -/
def buildNotes (f : FormState) : String :=
  String.intercalate "\n" (List.filterMap id
    [ if f.attendees = "" then none
      else some ("Attendees: " ++ f.attendees)
    , if f.materials_shared.length > 0 then
        some ("Materials Shared: " ++ String.intercalate ", " f.materials_shared)
      else none
    , if f.samples_distributed.length > 0 then
        some ("Samples Distributed: " ++ String.intercalate ", " f.samples_distributed)
      else none
    , if f.outcomes = "" then none
      else some ("Outcomes: " ++ f.outcomes)
    , if f.follow_up_actions = "" then none
      else some ("Follow-up Actions: " ++ f.follow_up_actions) ])

/-- The request body assembled by LogInteractionForm.handleSubmit
(lines 117-143) and posted to POST /interactions/structured.  `toISO`
stands for the browser conversion
new Date(date + "T" + time).toISOString(); the key structure of the body
does not depend on it. -/
def handleSubmitBody (toISO : String → String → String) (f : FormState) :
    List (String × JsonVal) :=
  [ ("hcp_name", .str f.hcp_name)
  , ("channel", .str f.interaction_type)
  , ("interaction_date", .str (toISO f.date f.time))
  , ("products_discussed",
      if f.topics_discussed = "" then .null else .str f.topics_discussed)
  , ("notes", .str (buildNotes f))
  , ("sentiment", .str f.sentiment) ]

/-- The set of body keys claimed for POST /interactions/structured in the
spec's interface section. -/
def specStructuredBodyKeys : List String :=
  ["hcp_name", "specialty", "interaction_date", "channel",
   "products_discussed", "notes"]

/-- A sample form state used to exhibit concrete payloads. -/
def sampleFormState : FormState :=
  { hcp_name := "Dr. Lee"
  , interaction_type := "Call"
  , date := "2024-01-01"
  , time := "10:00"
  , attendees := ""
  , topics_discussed := ""
  , materials_shared := []
  , samples_distributed := []
  , sentiment := "Neutral"
  , outcomes := ""
  , follow_up_actions := "" }

/-- A concrete stand-in for the browser date conversion, used only to
instantiate theorems at sample inputs. -/
def sampleToISO (d t : String) : String := d ++ "T" ++ t ++ ":00.000Z"

/-! ## Channels offered by the three submitting components -/

/-- The option values of the Interaction Type select in LogInteractionForm
(lines 185-187).  The initial form value "Meeting" is the first option. -/
def formChannelOptions : List String := ["Meeting", "Call", "Virtual"]

/-- The channel hardcoded by the LogInteractionChat component that lives in
LogInteractionForm.jsx (its handleSubmit dispatches channel "Meeting"). -/
def chatHardcodedChannel : String := "Meeting"

/-- The option values of the Channel select in the LogInteractionChat
component of src/unnamed/part_004 (lines 56-58).  The initial value
"In-Person" is the first option. -/
def chatChannelOptions : List String := ["In-Person", "Call", "Virtual"]

/-- The request body dispatched by the chat component inside
LogInteractionForm.jsx: free_text plus the hardcoded channel. -/
def chatHardcodedBody (inputText : String) : List (String × JsonVal) :=
  [ ("free_text", .str inputText)
  , ("channel", .str chatHardcodedChannel) ]

/-- The request body dispatched by the part_004 chat component: free_text
plus the selected channel. -/
def chatSelectBody (freeText chan : String) : List (String × JsonVal) :=
  [ ("free_text", .str freeText)
  , ("channel", .str chan) ]

/-- The spec's channel enumeration, lowercased. -/
def specChannelEnum : List String :=
  ["in-person", "call", "virtual", "meeting"]

/-- ASCII lowercasing of one character, used to compare channels
case-insensitively. -/
def lowerChar (c : Char) : Char :=
  if c.isUpper then Char.ofNat (c.toNat + 32) else c

/-- ASCII lowercasing of a string, used to compare channels
case-insensitively. -/
def lowerString (s : String) : String := String.mk (s.data.map lowerChar)

/-! ## Backend model.

The backend service (route handlers, tool handlers, ORM persistence) is not
part of this source tree — only the database schema reference and the
frontend callers are.  The definitions below are therefore modelled from the
specification (sections 3, 4.1-4.4, 6, 7 and 8). -/

/-- Modelled from the spec: an hcp_profiles row — id (PK), name, specialty,
organization, notes (section 3; schema.sql). -/
structure HCPProfile where
  id : Nat
  name : String
  specialty : Option String
  organization : Option String
  notes : Option String
deriving DecidableEq, Repr

/-- Modelled from the spec: an interactions row — id (PK), hcp_id (FK),
interaction_date, channel, products_discussed, notes and the AI-enriched
fields summary, sentiment, follow_up_action (section 3; schema.sql). -/
structure Interaction where
  id : Nat
  hcp_id : Nat
  interaction_date : String
  channel : String
  products_discussed : Option String
  notes : Option String
  summary : Option String
  sentiment : Option String
  follow_up_action : Option String
deriving DecidableEq, Repr

/-- Modelled from the spec: the persisted state is exactly the two tables of
section 3; fresh primary keys are tracked by the two counters. -/
structure Database where
  profiles : List HCPProfile
  interactions : List Interaction
  nextProfileId : Nat
  nextInteractionId : Nat
deriving DecidableEq, Repr

/-- Well-formedness of a database: every stored primary key is below the
corresponding fresh-id counter. -/
def Database.wf (db : Database) : Bool :=
  db.profiles.all (fun p => p.id < db.nextProfileId) &&
  db.interactions.all (fun r => r.id < db.nextInteractionId)

/-- The empty database, as auto-created on startup. -/
def emptyDatabase : Database :=
  { profiles := [], interactions := [], nextProfileId := 1, nextInteractionId := 1 }

/-- Find a profile by the (name, specialty) upsert key. -/
def findProfileByKey (db : Database) (name : String) (spec : Option String) :
    Option HCPProfile :=
  db.profiles.find? (fun p => p.name == name && p.specialty == spec)

/-- Modelled from the spec: upsert of the HCP profile by (name, specialty) —
reuse the matching profile when one exists, otherwise create one lazily
(sections 3 and 4.1).  Returns the updated database and the profile id. -/
def upsertProfile (db : Database) (name : String) (spec : Option String) :
    Database × Nat :=
  match findProfileByKey db name spec with
  | some p => (db, p.id)
  | none =>
      let p : HCPProfile :=
        { id := db.nextProfileId, name := name, specialty := spec
        , organization := none, notes := none }
      ({ db with profiles := db.profiles ++ [p]
               , nextProfileId := db.nextProfileId + 1 }, p.id)

/-- The body of POST /interactions/structured (section 6): hcp_name,
specialty?, interaction_date, channel, products_discussed?, notes?. -/
structure StructuredPayload where
  hcp_name : String
  specialty : Option String
  interaction_date : String
  channel : String
  products_discussed : Option String
  notes : Option String
deriving DecidableEq, Repr

/-- Modelled from the spec: validation of the required fields HCP name, date
and channel (sections 4.1 and 7). -/
def validStructured (p : StructuredPayload) : Bool :=
  p.hcp_name != "" && p.interaction_date != "" && p.channel != ""

/-- Result of a create request: success flag plus the new interaction and
hcp ids. -/
structure CreateResult where
  success : Bool
  interaction_id : Option Nat
  hcp_id : Option Nat
deriving DecidableEq, Repr

/-- Modelled from the spec: structured interaction creation — validate the
required fields, upsert the HCP profile by (name, specialty), insert the
interaction row verbatim, return the stored record (section 4.1). -/
def createStructured (db : Database) (p : StructuredPayload) :
    Database × CreateResult :=
  if validStructured p then
    let r1 := upsertProfile db p.hcp_name p.specialty
    let row : Interaction :=
      { id := r1.1.nextInteractionId, hcp_id := r1.2
      , interaction_date := p.interaction_date, channel := p.channel
      , products_discussed := p.products_discussed, notes := p.notes
      , summary := none, sentiment := none, follow_up_action := none }
    ({ r1.1 with interactions := r1.1.interactions ++ [row]
               , nextInteractionId := r1.1.nextInteractionId + 1 },
     { success := true, interaction_id := some row.id, hcp_id := some r1.2 })
  else (db, { success := false, interaction_id := none, hcp_id := none })

/-- GET /interactions/id : look up a stored interaction by id. -/
def getInteraction (db : Database) (iid : Nat) : Option Interaction :=
  db.interactions.find? (fun r => r.id == iid)

/-- The LLM extraction output on the chat path, when it parses: the fixed
JSON shape of section 4.2 (hcp name, specialty, products, sentiment,
follow-up, summary). -/
structure Extraction where
  hcp_name : String
  specialty : Option String
  products_discussed : Option String
  sentiment : Option String
  follow_up_action : Option String
  summary : Option String
deriving DecidableEq, Repr

/-- HTTP-level response of the chat log tool: status code and the stored
interaction id. -/
structure ChatResponse where
  status : Nat
  interaction_id : Option Nat
deriving DecidableEq, Repr

/-- Modelled from the spec: the chat-mode log tool (section 4.2).  The llm
argument is the parse of the model's extraction output — none models output
that is not valid JSON.  On parse success the profile is upserted from the
extracted name and the interaction stored with enriched fields; on parse
failure it degrades to storing the raw text as the note with null enrichment
fields, under a default profile, and still succeeds.  dateNow stands for the
server-side timestamp. -/
def handleChatLog (db : Database) (freeText channel dateNow : String)
    (llm : Option Extraction) : Database × ChatResponse :=
  match llm with
  | some ex =>
      let r1 := upsertProfile db ex.hcp_name ex.specialty
      let row : Interaction :=
        { id := r1.1.nextInteractionId, hcp_id := r1.2
        , interaction_date := dateNow, channel := channel
        , products_discussed := ex.products_discussed, notes := some freeText
        , summary := ex.summary, sentiment := ex.sentiment
        , follow_up_action := ex.follow_up_action }
      ({ r1.1 with interactions := r1.1.interactions ++ [row]
                 , nextInteractionId := r1.1.nextInteractionId + 1 },
       { status := 200, interaction_id := some row.id })
  | none =>
      let r1 := upsertProfile db "Unknown" none
      let row : Interaction :=
        { id := r1.1.nextInteractionId, hcp_id := r1.2
        , interaction_date := dateNow, channel := channel
        , products_discussed := none, notes := some freeText
        , summary := none, sentiment := none, follow_up_action := none }
      ({ r1.1 with interactions := r1.1.interactions ++ [row]
                 , nextInteractionId := r1.1.nextInteractionId + 1 },
       { status := 200, interaction_id := some row.id })

/-- The edit allow-list of section 4.3. -/
def editableFields : List String :=
  ["interaction_date", "channel", "products_discussed", "notes",
   "summary", "sentiment", "follow_up_action"]

/-- Modelled from the spec: apply one supplied key/value to an interaction
row — allow-listed keys update their field, every other key is ignored
silently (section 4.3). -/
def applyField (row : Interaction) (kv : String × String) : Interaction :=
  if kv.1 = "interaction_date" then { row with interaction_date := kv.2 }
  else if kv.1 = "channel" then { row with channel := kv.2 }
  else if kv.1 = "products_discussed" then { row with products_discussed := some kv.2 }
  else if kv.1 = "notes" then { row with notes := some kv.2 }
  else if kv.1 = "summary" then { row with summary := some kv.2 }
  else if kv.1 = "sentiment" then { row with sentiment := some kv.2 }
  else if kv.1 = "follow_up_action" then { row with follow_up_action := some kv.2 }
  else row

/-- Response of PATCH /interactions/id : success, interaction_id and the
set of fields actually applied (section 6). -/
structure EditResult where
  success : Bool
  interaction_id : Option Nat
  applied_updates : List String
deriving DecidableEq, Repr

/-- Modelled from the spec: the edit path — reject unknown ids, apply the
supplied partial update map (non-allow-listed keys being ignored by
applyField), and report exactly the allow-listed supplied keys as
applied_updates (section 4.3). -/
def editInteraction (db : Database) (iid : Nat)
    (updates : List (String × String)) : Database × EditResult :=
  match getInteraction db iid with
  | none =>
      (db, { success := false, interaction_id := none, applied_updates := [] })
  | some row =>
      let row2 := updates.foldl applyField row
      ({ db with interactions :=
            db.interactions.map (fun r => if r.id == iid then row2 else r) },
       { success := true, interaction_id := some iid
       , applied_updates :=
           (updates.filter (fun kv => editableFields.contains kv.1)).map Prod.fst })

/-- A fetch-profile query: by id or by name (section 4.4). -/
inductive ProfileQuery where
  | byId (pid : Nat)
  | byName (name : String)
deriving DecidableEq, Repr

/-- Whether a stored profile matches a fetch-profile query. -/
def matchesQuery (q : ProfileQuery) (p : HCPProfile) : Bool :=
  match q with
  | .byId pid => p.id == pid
  | .byName n => p.name == n

/-- Insert an interaction into a list kept in descending date order. -/
def insertByDateDesc (r : Interaction) : List Interaction → List Interaction
  | [] => [r]
  | x :: xs =>
      if x.interaction_date ≤ r.interaction_date then r :: x :: xs
      else x :: insertByDateDesc r xs

/-- Sort interactions by date, descending. -/
def sortByDateDesc (l : List Interaction) : List Interaction :=
  l.foldr insertByDateDesc []

/-- Result of fetch-profile: success flag, the profile when found, and its
most recent interactions. -/
structure FetchProfileResult where
  success : Bool
  profile : Option HCPProfile
  recent : List Interaction
deriving DecidableEq, Repr

/-- Modelled from the spec: the fetch-profile tool — accepts an id or a
name; returns the profile plus up to five most-recent interactions ordered
by date descending; returns a structured not-found result (success false),
not a hard failure, when no match exists (section 4.4). -/
def fetchProfile (db : Database) (q : ProfileQuery) : FetchProfileResult :=
  match db.profiles.find? (matchesQuery q) with
  | none => { success := false, profile := none, recent := [] }
  | some p =>
      { success := true, profile := some p
      , recent :=
          (sortByDateDesc (db.interactions.filter (fun r => r.hcp_id == p.id))).take 5 }

/-- Helper: the loading-implies-no-error invariant is preserved by every
single action of the frontend slice reducer. -/
lemma reducer_preserves_inv {D : Type} (s : SliceState D) (a : SliceAction D)
    (h : s.loading = true → s.error = none) :
    (interactionReducerFrontend s a).loading = true →
    (interactionReducerFrontend s a).error = none := by
  cases a <;> simp [interactionReducerFrontend] <;> exact h

/-- Helper: the invariant holds after running any action list from any state
satisfying it. -/
lemma foldl_reducer_inv {D : Type} (acts : List (SliceAction D)) :
    ∀ s : SliceState D, (s.loading = true → s.error = none) →
      ((acts.foldl interactionReducerFrontend s).loading = true →
       (acts.foldl interactionReducerFrontend s).error = none) := by
  induction acts with
  | nil => intro s h; exact h
  | cons a rest ih =>
      intro s h
      exact ih (interactionReducerFrontend s a) (reducer_preserves_inv s a h)

/-- The row the chat log tool stores on parse failure (proof abbreviation,
definitionally the row built inside handleChatLog). -/
def chatFallbackRow (db : Database) (freeText channel dateNow : String) :
    Interaction :=
  { id := (upsertProfile db "Unknown" none).1.nextInteractionId
  , hcp_id := (upsertProfile db "Unknown" none).2
  , interaction_date := dateNow, channel := channel
  , products_discussed := none, notes := some freeText
  , summary := none, sentiment := none, follow_up_action := none }

/-- The row a valid structured submission stores (proof abbreviation,
definitionally the row built inside createStructured). -/
def createdRow (db : Database) (p : StructuredPayload) : Interaction :=
  { id := (upsertProfile db p.hcp_name p.specialty).1.nextInteractionId
  , hcp_id := (upsertProfile db p.hcp_name p.specialty).2
  , interaction_date := p.interaction_date, channel := p.channel
  , products_discussed := p.products_discussed, notes := p.notes
  , summary := none, sentiment := none, follow_up_action := none }

/-- A sample stored profile for concrete evaluations. -/
def sampleProfile : HCPProfile :=
  { id := 1, name := "Dr. Lee", specialty := some "Cardiology"
  , organization := none, notes := none }

/-- A sample stored interaction row for concrete evaluations. -/
def sampleRow : Interaction :=
  { id := 1, hcp_id := 1, interaction_date := "2024-01-01T10:00:00Z"
  , channel := "Call", products_discussed := none, notes := none
  , summary := none, sentiment := none, follow_up_action := none }

/-- A sample database holding one profile and one interaction. -/
def sampleDb : Database :=
  { profiles := [sampleProfile], interactions := [sampleRow]
  , nextProfileId := 2, nextInteractionId := 2 }

/-- A sample update map mixing an allow-listed and a foreign key. -/
def sampleUpdates : List (String × String) :=
  [("channel", "Virtual"), ("priority", "high")]

/-- A sample valid structured payload. -/
def samplePayload : StructuredPayload :=
  { hcp_name := "Dr. Lee", specialty := some "Cardiology"
  , interaction_date := "2024-01-01T10:00:00Z", channel := "Call"
  , products_discussed := none, notes := none }

/-- Helper: find? skips a prefix in which nothing matches. -/
lemma find?_append_none {α : Type} (p : α → Bool) (l1 l2 : List α)
    (h : l1.find? p = none) : (l1 ++ l2).find? p = l2.find? p := by
  rw [List.find?_append, h, Option.none_or]

/-- Helper: upsertProfile never touches the interactions table. -/
lemma upsertProfile_interactions (db : Database) (n : String) (s : Option String) :
    (upsertProfile db n s).1.interactions = db.interactions := by
  unfold upsertProfile
  split <;> rfl

/-- Helper: upsertProfile never changes the interaction id counter. -/
lemma upsertProfile_nextInteractionId (db : Database) (n : String)
    (s : Option String) :
    (upsertProfile db n s).1.nextInteractionId = db.nextInteractionId := by
  unfold upsertProfile
  split <;> rfl

/-- Helper: after an upsert the (name, specialty) key resolves to a profile
carrying exactly the id the upsert returned. -/
lemma findProfileByKey_upsert (db : Database) (n : String) (s : Option String) :
    ∃ p, findProfileByKey (upsertProfile db n s).1 n s = some p ∧
      p.id = (upsertProfile db n s).2 := by
  unfold upsertProfile
  cases h : findProfileByKey db n s with
  | some p => exact ⟨p, h, rfl⟩
  | none =>
      refine ⟨{ id := db.nextProfileId, name := n, specialty := s
              , organization := none, notes := none }, ?_, rfl⟩
      unfold findProfileByKey at h ⊢
      rw [find?_append_none _ _ _ h]
      exact List.find?_cons_of_pos _ (by simp)

/-- Helper: upsertProfile returns the database unchanged together with the
found id when the key already resolves. -/
lemma upsertProfile_of_found (db : Database) (n : String) (s : Option String)
    (q : HCPProfile) (h : findProfileByKey db n s = some q) :
    upsertProfile db n s = (db, q.id) := by
  unfold upsertProfile
  rw [h]

/-- Helper: findProfileByKey reads only the profiles table. -/
lemma findProfileByKey_congr (db1 db2 : Database)
    (h : db1.profiles = db2.profiles) (n : String) (s : Option String) :
    findProfileByKey db1 n s = findProfileByKey db2 n s := by
  unfold findProfileByKey
  rw [h]

/-- Helper: in a well-formed database every stored interaction id is below
the counter. -/
lemma wf_interaction_ids {db : Database} (h : db.wf = true) :
    ∀ r ∈ db.interactions, r.id < db.nextInteractionId := by
  unfold Database.wf at h
  rw [Bool.and_eq_true] at h
  have h2 := h.2
  rw [List.all_eq_true] at h2
  intro r hr
  simpa using h2 r hr

/-- Helper: appending a row with a fresh id and looking that id up finds
exactly the appended row. -/
lemma find?_snoc_fresh (l : List Interaction) (row : Interaction)
    (h : ∀ r ∈ l, r.id ≠ row.id) :
    (l ++ [row]).find? (fun r => r.id == row.id) = some row := by
  have h1 : l.find? (fun r => r.id == row.id) = none := by
    rw [List.find?_eq_none]
    intro r hr
    simpa using h r hr
  rw [find?_append_none _ _ _ h1]
  exact List.find?_cons_of_pos _ (by simp)

/-- Helper: the profiles table after a structured create is the one the
upsert produced. -/
lemma createStructured_profiles (db : Database) (p : StructuredPayload)
    (hv : validStructured p = true) :
    (createStructured db p).1.profiles =
      (upsertProfile db p.hcp_name p.specialty).1.profiles := by
  simp [createStructured, hv]

/-- Helper: the hcp_id a structured create reports is the upserted id. -/
lemma createStructured_hcp_id (db : Database) (p : StructuredPayload)
    (hv : validStructured p = true) :
    (createStructured db p).2.hcp_id =
      some (upsertProfile db p.hcp_name p.specialty).2 := by
  simp [createStructured, hv]

/-- Helper: a valid structured create, written out. -/
lemma createStructured_of_valid (db : Database) (p : StructuredPayload)
    (hv : validStructured p = true) :
    createStructured db p =
      ({ (upsertProfile db p.hcp_name p.specialty).1 with
           interactions :=
             (upsertProfile db p.hcp_name p.specialty).1.interactions ++
               [createdRow db p]
         , nextInteractionId :=
             (upsertProfile db p.hcp_name p.specialty).1.nextInteractionId + 1 },
       { success := true, interaction_id := some (createdRow db p).id
       , hcp_id := some (upsertProfile db p.hcp_name p.specialty).2 }) := by
  unfold createStructured
  rw [hv]
  rfl

/-- Helper: applyField leaves ids intact always, and leaves each editable
field intact when the supplied key is not that field's name. -/
lemma applyField_frame (row : Interaction) (kv : String × String) :
    (applyField row kv).id = row.id ∧
    (applyField row kv).hcp_id = row.hcp_id ∧
    (kv.1 ≠ "interaction_date" →
      (applyField row kv).interaction_date = row.interaction_date) ∧
    (kv.1 ≠ "channel" → (applyField row kv).channel = row.channel) ∧
    (kv.1 ≠ "products_discussed" →
      (applyField row kv).products_discussed = row.products_discussed) ∧
    (kv.1 ≠ "notes" → (applyField row kv).notes = row.notes) ∧
    (kv.1 ≠ "summary" → (applyField row kv).summary = row.summary) ∧
    (kv.1 ≠ "sentiment" → (applyField row kv).sentiment = row.sentiment) ∧
    (kv.1 ≠ "follow_up_action" →
      (applyField row kv).follow_up_action = row.follow_up_action) := by
  unfold applyField
  split_ifs <;>
    refine ⟨rfl, rfl, ?_, ?_, ?_, ?_, ?_, ?_, ?_⟩ <;>
    intro hn <;>
    first
    | rfl
    | exact absurd (by assumption) hn

/-- Helper: folding applyField leaves ids intact, and leaves each editable
field intact when no supplied key names it. -/
lemma foldl_applyField_frame (updates : List (String × String))
    (row : Interaction) :
    (updates.foldl applyField row).id = row.id ∧
    (updates.foldl applyField row).hcp_id = row.hcp_id ∧
    ((∀ kv ∈ updates, kv.1 ≠ "interaction_date") →
      (updates.foldl applyField row).interaction_date = row.interaction_date) ∧
    ((∀ kv ∈ updates, kv.1 ≠ "channel") →
      (updates.foldl applyField row).channel = row.channel) ∧
    ((∀ kv ∈ updates, kv.1 ≠ "products_discussed") →
      (updates.foldl applyField row).products_discussed = row.products_discussed) ∧
    ((∀ kv ∈ updates, kv.1 ≠ "notes") →
      (updates.foldl applyField row).notes = row.notes) ∧
    ((∀ kv ∈ updates, kv.1 ≠ "summary") →
      (updates.foldl applyField row).summary = row.summary) ∧
    ((∀ kv ∈ updates, kv.1 ≠ "sentiment") →
      (updates.foldl applyField row).sentiment = row.sentiment) ∧
    ((∀ kv ∈ updates, kv.1 ≠ "follow_up_action") →
      (updates.foldl applyField row).follow_up_action = row.follow_up_action) := by
  induction updates generalizing row with
  | nil =>
      exact ⟨rfl, rfl, fun _ => rfl, fun _ => rfl, fun _ => rfl, fun _ => rfl,
             fun _ => rfl, fun _ => rfl, fun _ => rfl⟩
  | cons kv rest ih =>
      obtain ⟨a1, a2, a3, a4, a5, a6, a7, a8, a9⟩ := applyField_frame row kv
      obtain ⟨b1, b2, b3, b4, b5, b6, b7, b8, b9⟩ := ih (applyField row kv)
      rw [List.foldl_cons]
      refine ⟨b1.trans a1, b2.trans a2, ?_, ?_, ?_, ?_, ?_, ?_, ?_⟩ <;>
        intro h <;>
        refine Eq.trans (by
          first
          | exact b3 fun kv' hm => h kv' (List.mem_cons_of_mem _ hm)
          | exact b4 fun kv' hm => h kv' (List.mem_cons_of_mem _ hm)
          | exact b5 fun kv' hm => h kv' (List.mem_cons_of_mem _ hm)
          | exact b6 fun kv' hm => h kv' (List.mem_cons_of_mem _ hm)
          | exact b7 fun kv' hm => h kv' (List.mem_cons_of_mem _ hm)
          | exact b8 fun kv' hm => h kv' (List.mem_cons_of_mem _ hm)
          | exact b9 fun kv' hm => h kv' (List.mem_cons_of_mem _ hm)) (by
          first
          | exact a3 (h kv (List.mem_cons_self _ _))
          | exact a4 (h kv (List.mem_cons_self _ _))
          | exact a5 (h kv (List.mem_cons_self _ _))
          | exact a6 (h kv (List.mem_cons_self _ _))
          | exact a7 (h kv (List.mem_cons_self _ _))
          | exact a8 (h kv (List.mem_cons_self _ _))
          | exact a9 (h kv (List.mem_cons_self _ _)))

/-- Helper: applyField ignores keys outside the allow-list. -/
lemma applyField_not_editable (row : Interaction) (kv : String × String)
    (h : editableFields.contains kv.1 = false) : applyField row kv = row := by
  simp only [editableFields, List.contains_cons, List.contains_nil,
    Bool.or_eq_false_iff, beq_eq_false_iff_ne, ne_eq] at h
  obtain ⟨h1, h2, h3, h4, h5, h6, h7, _⟩ := h
  unfold applyField
  rw [if_neg h1, if_neg h2, if_neg h3, if_neg h4, if_neg h5, if_neg h6,
      if_neg h7]

/-- Helper: folding applyField over the whole update map equals folding it
over just the allow-listed entries. -/
lemma foldl_applyField_filter (updates : List (String × String))
    (row : Interaction) :
    updates.foldl applyField row =
      (updates.filter (fun kv => editableFields.contains kv.1)).foldl
        applyField row := by
  induction updates generalizing row with
  | nil => rfl
  | cons kv rest ih =>
      cases h : editableFields.contains kv.1 with
      | true =>
          rw [List.foldl_cons, List.filter_cons_of_pos (by simpa using h),
              List.foldl_cons]
          exact ih _
      | false =>
          rw [List.foldl_cons, List.filter_cons_of_neg (by simpa using h),
              applyField_not_editable row kv h]
          exact ih _

end CrmHcp

open CrmHcp

/-- C8: the interaction-slice reducer defined in src/unnamed/part_001 and the
one defined in src/frontend/src/redux/interactionSlice.js compute the same
next state for every state and every handled action. -/
theorem C8_reducers_equal {D : Type} (s : SliceState D) (a : SliceAction D) :
    interactionReducerUnnamed s a = interactionReducerFrontend s a := by
  cases a <;> rfl

/-- C9: in every state of the interaction slice reachable from the initial
state by a sequence of slice actions, loading = true implies error = null. -/
theorem C9_loading_implies_no_error {D : Type} (acts : List (SliceAction D))
    (h : (runSlice acts).loading = true) : (runSlice acts).error = none := by
  have := foldl_reducer_inv (D := D) acts (initialSliceState D)
  simp [initialSliceState] at this
  exact this h

/-- C9 witness: after a single structuredPending action loading is true, and
the theorem yields error = none there. -/
theorem C9_witness :
    (runSlice (D := Unit) [SliceAction.structuredPending]).loading = true ∧
    (runSlice (D := Unit) [SliceAction.structuredPending]).error = none :=
  ⟨by decide, C9_loading_implies_no_error [SliceAction.structuredPending] (by decide)⟩

/-- C10: each slice action writes only its designated state fields and leaves
all the others unchanged: setMode only mode; clearError only error;
clearChatResult only chatToolResult; each pending case only loading and
error; structuredFulfilled only loading and lastInteraction; chatFulfilled
only loading and chatToolResult; each rejected case only loading and
error. -/
theorem C10_frame {D : Type} (s : SliceState D) (p : String) (d : D)
    (r : Option RejectPayload) :
    ((interactionReducerFrontend s (.setMode p)).loading = s.loading ∧
     (interactionReducerFrontend s (.setMode p)).error = s.error ∧
     (interactionReducerFrontend s (.setMode p)).lastInteraction = s.lastInteraction ∧
     (interactionReducerFrontend s (.setMode p)).chatToolResult = s.chatToolResult) ∧
    ((interactionReducerFrontend s .clearError).mode = s.mode ∧
     (interactionReducerFrontend s .clearError).loading = s.loading ∧
     (interactionReducerFrontend s .clearError).lastInteraction = s.lastInteraction ∧
     (interactionReducerFrontend s .clearError).chatToolResult = s.chatToolResult) ∧
    ((interactionReducerFrontend s .clearChatResult).mode = s.mode ∧
     (interactionReducerFrontend s .clearChatResult).loading = s.loading ∧
     (interactionReducerFrontend s .clearChatResult).error = s.error ∧
     (interactionReducerFrontend s .clearChatResult).lastInteraction = s.lastInteraction) ∧
    ((interactionReducerFrontend s .structuredPending).mode = s.mode ∧
     (interactionReducerFrontend s .structuredPending).lastInteraction = s.lastInteraction ∧
     (interactionReducerFrontend s .structuredPending).chatToolResult = s.chatToolResult) ∧
    ((interactionReducerFrontend s (.structuredFulfilled d)).mode = s.mode ∧
     (interactionReducerFrontend s (.structuredFulfilled d)).error = s.error ∧
     (interactionReducerFrontend s (.structuredFulfilled d)).chatToolResult = s.chatToolResult) ∧
    ((interactionReducerFrontend s (.structuredRejected r)).mode = s.mode ∧
     (interactionReducerFrontend s (.structuredRejected r)).lastInteraction = s.lastInteraction ∧
     (interactionReducerFrontend s (.structuredRejected r)).chatToolResult = s.chatToolResult) ∧
    ((interactionReducerFrontend s .chatPending).mode = s.mode ∧
     (interactionReducerFrontend s .chatPending).lastInteraction = s.lastInteraction ∧
     (interactionReducerFrontend s .chatPending).chatToolResult = s.chatToolResult) ∧
    ((interactionReducerFrontend s (.chatFulfilled d)).mode = s.mode ∧
     (interactionReducerFrontend s (.chatFulfilled d)).error = s.error ∧
     (interactionReducerFrontend s (.chatFulfilled d)).lastInteraction = s.lastInteraction) ∧
    ((interactionReducerFrontend s (.chatRejected r)).mode = s.mode ∧
     (interactionReducerFrontend s (.chatRejected r)).lastInteraction = s.lastInteraction ∧
     (interactionReducerFrontend s (.chatRejected r)).chatToolResult = s.chatToolResult) := by
  repeat first
  | constructor
  | rfl

/-- C1 counterexample: the claim that the structured-submit body contains
only keys among hcp_name/specialty/interaction_date/channel/
products_discussed/notes fails at a concrete form state: handleSubmit also
always sends a sentiment key. -/
theorem C1_counterexample :
    ¬ (∀ k ∈ (handleSubmitBody sampleToISO sampleFormState).map Prod.fst,
        k ∈ specStructuredBodyKeys) := by
  intro h
  have := h "sentiment" (by decide)
  simp [specStructuredBodyKeys] at this

/-- C1 (amended): for every form state the structured-submit body contains
exactly the keys hcp_name, channel, interaction_date, products_discussed,
notes and sentiment, in that order — specialty is never sent, and sentiment
is always sent in addition to the spec's listed keys. -/
theorem C1_body_keys (toISO : String → String → String) (f : FormState) :
    (handleSubmitBody toISO f).map Prod.fst =
      ["hcp_name", "channel", "interaction_date", "products_discussed",
       "notes", "sentiment"] := rfl

/-- C7: every request body the frontend can send carries a channel value
whose lowercasing is one of the spec's four enumerated channels: the
structured form under any selectable interaction type, the hardcoded-channel
chat component, and the part_004 chat component under any selectable
channel. -/
theorem C7_channel_enum (toISO : String → String → String) (f : FormState)
    (chanSel txt ft : String)
    (hf : f.interaction_type ∈ formChannelOptions)
    (hc : chanSel ∈ chatChannelOptions) :
    (∃ c, lookupField "channel" (handleSubmitBody toISO f) =
        some (.str c) ∧ lowerString c ∈ specChannelEnum) ∧
    (∃ c, lookupField "channel" (chatHardcodedBody txt) =
        some (.str c) ∧ lowerString c ∈ specChannelEnum) ∧
    (∃ c, lookupField "channel" (chatSelectBody ft chanSel) =
        some (.str c) ∧ lowerString c ∈ specChannelEnum) := by
  refine ⟨⟨f.interaction_type, rfl, ?_⟩,
          ⟨chatHardcodedChannel, rfl, by decide⟩,
          ⟨chanSel, rfl, ?_⟩⟩
  · simp only [formChannelOptions, List.mem_cons, List.not_mem_nil,
      or_false] at hf
    rcases hf with h | h | h <;> rw [h] <;> decide
  · simp only [chatChannelOptions, List.mem_cons, List.not_mem_nil,
      or_false] at hc
    rcases hc with h | h | h <;> rw [h] <;> decide

/-- C7 witness: the theorem applied at a concrete form state with
interaction type Call and a concrete chat channel In-Person. -/
theorem C7_witness :
    sampleFormState.interaction_type ∈ formChannelOptions ∧
    "In-Person" ∈ chatChannelOptions ∧
    ((∃ c, lookupField "channel" (handleSubmitBody sampleToISO sampleFormState) =
        some (.str c) ∧ lowerString c ∈ specChannelEnum) ∧
     (∃ c, lookupField "channel" (chatHardcodedBody "met dr smith") =
        some (.str c) ∧ lowerString c ∈ specChannelEnum) ∧
     (∃ c, lookupField "channel" (chatSelectBody "met dr smith" "In-Person") =
        some (.str c) ∧ lowerString c ∈ specChannelEnum)) :=
  ⟨by decide, by decide,
   C7_channel_enum sampleToISO sampleFormState "In-Person" "met dr smith"
     "met dr smith" (by decide) (by decide)⟩

/-- C2: a chat-mode submission whose LLM extraction output is not valid JSON
(llm = none) still succeeds with a 2xx status, and the stored interaction
holds the raw free text as its note with null summary, sentiment and
follow_up_action. -/
theorem C2_chat_fallback (db : Database) (freeText channel dateNow : String)
    (hwf : db.wf = true) :
    200 ≤ (handleChatLog db freeText channel dateNow none).2.status ∧
    (handleChatLog db freeText channel dateNow none).2.status < 300 ∧
    ∃ iid row,
      (handleChatLog db freeText channel dateNow none).2.interaction_id =
        some iid ∧
      getInteraction (handleChatLog db freeText channel dateNow none).1 iid =
        some row ∧
      row.notes = some freeText ∧ row.summary = none ∧ row.sentiment = none ∧
      row.follow_up_action = none := by
  have hne : ∀ r ∈ db.interactions,
      r.id ≠ (upsertProfile db "Unknown" none).1.nextInteractionId := by
    intro r hr
    rw [upsertProfile_nextInteractionId]
    exact Nat.ne_of_lt (wf_interaction_ids hwf r hr)
  refine ⟨by simp [handleChatLog], by simp [handleChatLog],
    (upsertProfile db "Unknown" none).1.nextInteractionId,
    chatFallbackRow db freeText channel dateNow,
    rfl, ?_, rfl, rfl, rfl, rfl⟩
  show ((upsertProfile db "Unknown" none).1.interactions ++
      [chatFallbackRow db freeText channel dateNow]).find?
      (fun r => r.id == (upsertProfile db "Unknown" none).1.nextInteractionId) =
      some (chatFallbackRow db freeText channel dateNow)
  rw [upsertProfile_interactions]
  exact find?_snoc_fresh db.interactions
    (chatFallbackRow db freeText channel dateNow) hne

/-- C2 witness: the theorem applied to a concrete well-formed database and
free text. -/
theorem C2_witness :
    sampleDb.wf = true ∧
    (200 ≤ (handleChatLog sampleDb "raw chat text" "Meeting" "2024-01-02"
        none).2.status ∧
     (handleChatLog sampleDb "raw chat text" "Meeting" "2024-01-02"
        none).2.status < 300 ∧
     ∃ iid row,
       (handleChatLog sampleDb "raw chat text" "Meeting" "2024-01-02"
          none).2.interaction_id = some iid ∧
       getInteraction (handleChatLog sampleDb "raw chat text" "Meeting"
          "2024-01-02" none).1 iid = some row ∧
       row.notes = some "raw chat text" ∧ row.summary = none ∧
       row.sentiment = none ∧ row.follow_up_action = none) :=
  ⟨by decide,
   C2_chat_fallback sampleDb "raw chat text" "Meeting" "2024-01-02" (by decide)⟩

/-- C3: editing rejects unknown ids; on a known id it reports exactly the
allow-listed supplied keys as applied_updates, applying the update map is
the same as applying only its allow-listed entries, the row ids never
change, and every editable field that no supplied key names is unchanged. -/
theorem C3_edit_allowlist (db : Database) (iid : Nat)
    (updates : List (String × String)) :
    (getInteraction db iid = none →
      editInteraction db iid updates =
        (db, { success := false, interaction_id := none
             , applied_updates := [] })) ∧
    (∀ row, getInteraction db iid = some row →
      (editInteraction db iid updates).2 =
        { success := true, interaction_id := some iid
        , applied_updates :=
            (updates.filter (fun kv => editableFields.contains kv.1)).map
              Prod.fst } ∧
      updates.foldl applyField row =
        (updates.filter (fun kv => editableFields.contains kv.1)).foldl
          applyField row ∧
      (updates.foldl applyField row).id = row.id ∧
      (updates.foldl applyField row).hcp_id = row.hcp_id ∧
      ((∀ kv ∈ updates, kv.1 ≠ "interaction_date") →
        (updates.foldl applyField row).interaction_date =
          row.interaction_date) ∧
      ((∀ kv ∈ updates, kv.1 ≠ "channel") →
        (updates.foldl applyField row).channel = row.channel) ∧
      ((∀ kv ∈ updates, kv.1 ≠ "products_discussed") →
        (updates.foldl applyField row).products_discussed =
          row.products_discussed) ∧
      ((∀ kv ∈ updates, kv.1 ≠ "notes") →
        (updates.foldl applyField row).notes = row.notes) ∧
      ((∀ kv ∈ updates, kv.1 ≠ "summary") →
        (updates.foldl applyField row).summary = row.summary) ∧
      ((∀ kv ∈ updates, kv.1 ≠ "sentiment") →
        (updates.foldl applyField row).sentiment = row.sentiment) ∧
      ((∀ kv ∈ updates, kv.1 ≠ "follow_up_action") →
        (updates.foldl applyField row).follow_up_action =
          row.follow_up_action)) := by
  constructor
  · intro h
    unfold editInteraction
    rw [h]
  · intro row h
    obtain ⟨f1, f2, f3, f4, f5, f6, f7, f8, f9⟩ :=
      foldl_applyField_frame updates row
    refine ⟨?_, foldl_applyField_filter updates row, f1, f2, f3, f4, f5, f6,
      f7, f8, f9⟩
    unfold editInteraction
    rw [h]

/-- C3 witness: on a concrete database, editing row 1 with a map holding an
allow-listed key (channel) and a foreign key (priority) reports exactly
channel as applied and leaves the notes field unchanged. -/
theorem C3_witness :
    getInteraction sampleDb 1 = some sampleRow ∧
    (editInteraction sampleDb 1 sampleUpdates).2 =
      { success := true, interaction_id := some 1
      , applied_updates := ["channel"] } ∧
    (sampleUpdates.foldl applyField sampleRow).notes = sampleRow.notes :=
  ⟨by decide,
   by
     rw [((C3_edit_allowlist sampleDb 1 sampleUpdates).2 sampleRow
       (by decide)).1]
     decide,
   ((C3_edit_allowlist sampleDb 1 sampleUpdates).2 sampleRow
       (by decide)).2.2.2.2.2.2.2.1 (by decide)⟩

/-- C4: submitting two valid structured interactions with the same
(hcp_name, specialty) key makes the second reuse the first's HCP profile id,
and the second submission adds no profile row. -/
theorem C4_profile_reuse (db : Database) (p1 p2 : StructuredPayload)
    (hv1 : validStructured p1 = true) (hv2 : validStructured p2 = true)
    (hname : p2.hcp_name = p1.hcp_name) (hspec : p2.specialty = p1.specialty) :
    (createStructured (createStructured db p1).1 p2).2.hcp_id =
      (createStructured db p1).2.hcp_id ∧
    (createStructured (createStructured db p1).1 p2).1.profiles.length =
      (createStructured db p1).1.profiles.length := by
  obtain ⟨q, hq, hqid⟩ := findProfileByKey_upsert db p1.hcp_name p1.specialty
  have h2 : findProfileByKey (createStructured db p1).1 p2.hcp_name
      p2.specialty = some q := by
    rw [hname, hspec,
      findProfileByKey_congr (createStructured db p1).1
        (upsertProfile db p1.hcp_name p1.specialty).1
        (createStructured_profiles db p1 hv1)]
    exact hq
  have h3 : upsertProfile (createStructured db p1).1 p2.hcp_name p2.specialty =
      ((createStructured db p1).1, q.id) :=
    upsertProfile_of_found _ _ _ q h2
  constructor
  · rw [createStructured_hcp_id (createStructured db p1).1 p2 hv2, h3,
      createStructured_hcp_id db p1 hv1, hqid]
  · rw [createStructured_profiles (createStructured db p1).1 p2 hv2, h3]

/-- C4 witness: the theorem applied to two submissions of a concrete valid
payload on the empty database. -/
theorem C4_witness :
    validStructured samplePayload = true ∧
    (createStructured (createStructured emptyDatabase samplePayload).1
        samplePayload).2.hcp_id =
      (createStructured emptyDatabase samplePayload).2.hcp_id ∧
    (createStructured (createStructured emptyDatabase samplePayload).1
        samplePayload).1.profiles.length =
      (createStructured emptyDatabase samplePayload).1.profiles.length :=
  ⟨by decide,
   (C4_profile_reuse emptyDatabase samplePayload samplePayload (by decide)
     (by decide) rfl rfl).1,
   (C4_profile_reuse emptyDatabase samplePayload samplePayload (by decide)
     (by decide) rfl rfl).2⟩

/-- C5: fetch-profile for a query matching no stored profile returns the
structured not-found result with success false — the operation is a total
function, so no exception is possible. -/
theorem C5_fetch_notfound (db : Database) (q : ProfileQuery)
    (h : ∀ p ∈ db.profiles, matchesQuery q p = false) :
    fetchProfile db q = { success := false, profile := none, recent := [] } := by
  have hf : db.profiles.find? (matchesQuery q) = none := by
    rw [List.find?_eq_none]
    intro p hp
    simp [h p hp]
  unfold fetchProfile
  rw [hf]

/-- C5 witness: fetching id 42 from the empty database yields the
structured not-found result. -/
theorem C5_witness :
    (∀ p ∈ emptyDatabase.profiles,
      matchesQuery (ProfileQuery.byId 42) p = false) ∧
    fetchProfile emptyDatabase (ProfileQuery.byId 42) =
      { success := false, profile := none, recent := [] } :=
  ⟨by decide,
   C5_fetch_notfound emptyDatabase (ProfileQuery.byId 42) (by decide)⟩

/-- C6: a valid structured submission succeeds, and fetching the returned
interaction id yields a row whose date, channel, products_discussed and
notes equal the submitted payload's fields, referencing the returned hcp id
(round-trip). -/
theorem C6_roundtrip (db : Database) (p : StructuredPayload)
    (hwf : db.wf = true) (hv : validStructured p = true) :
    (createStructured db p).2.success = true ∧
    ∃ iid row,
      (createStructured db p).2.interaction_id = some iid ∧
      getInteraction (createStructured db p).1 iid = some row ∧
      row.interaction_date = p.interaction_date ∧
      row.channel = p.channel ∧
      row.products_discussed = p.products_discussed ∧
      row.notes = p.notes ∧
      some row.hcp_id = (createStructured db p).2.hcp_id := by
  have hne : ∀ r ∈ db.interactions,
      r.id ≠ (upsertProfile db p.hcp_name p.specialty).1.nextInteractionId := by
    intro r hr
    rw [upsertProfile_nextInteractionId]
    exact Nat.ne_of_lt (wf_interaction_ids hwf r hr)
  rw [createStructured_of_valid db p hv]
  refine ⟨rfl, (createdRow db p).id, createdRow db p, rfl, ?_, rfl, rfl, rfl,
    rfl, rfl⟩
  show ((upsertProfile db p.hcp_name p.specialty).1.interactions ++
          [createdRow db p]).find? (fun r => r.id == (createdRow db p).id) =
      some (createdRow db p)
  rw [upsertProfile_interactions]
  exact find?_snoc_fresh db.interactions (createdRow db p) hne

/-- C6 witness: the round-trip theorem applied to the spec's example payload
(Dr. Lee, Call, 2024-01-01T10:00:00Z) on the empty database. -/
theorem C6_witness :
    emptyDatabase.wf = true ∧ validStructured samplePayload = true ∧
    ((createStructured emptyDatabase samplePayload).2.success = true ∧
     ∃ iid row,
       (createStructured emptyDatabase samplePayload).2.interaction_id =
         some iid ∧
       getInteraction (createStructured emptyDatabase samplePayload).1 iid =
         some row ∧
       row.interaction_date = samplePayload.interaction_date ∧
       row.channel = samplePayload.channel ∧
       row.products_discussed = samplePayload.products_discussed ∧
       row.notes = samplePayload.notes ∧
       some row.hcp_id = (createStructured emptyDatabase samplePayload).2.hcp_id) :=
  ⟨by decide, by decide,
   C6_roundtrip emptyDatabase samplePayload (by decide) (by decide)⟩
